import Mathlib

/-!
Shallow embedding of the inventory-health computation pipeline of the
`ai-stock-dist-snowflake` repository, together with theorems settling the
frozen claims about it.

Numeric values are modelled as rationals (`ℚ`).  The sources embedded here:

* `streamlit_app/app.py` — `load_demo_data` (stock status, risk score,
  days-until-stockout of the demo loader) and `display_reorder_list`
  (urgent-items count);
* `streamlit_app/utils/data_processing.py` — `generate_sample_inventory`
  and `generate_sample_forecasts`;
* `streamlit_app/components/forecasting.py` — `generate_forecast_data`
  (per-row computation; the normal draws are the nondeterministic input,
  modelled as an explicit list of samples);
* `data/generate_sample_data.py` — `generate_inventory_data`
  (percentage-of-max stock-status scheme).
-/

namespace Inventory

/-- Round-half-to-even to an integer, as Python's builtin `round` behaves on
its argument (ties go to the even integer). -/
def pyRound (x : ℚ) : ℤ :=
  if x - ⌊x⌋ < 1/2 then ⌊x⌋
  else if 1/2 < x - ⌊x⌋ then ⌊x⌋ + 1
  else if ⌊x⌋ % 2 = 0 then ⌊x⌋ else ⌊x⌋ + 1

/-- Python's `round(x, d)`: round to `d` decimal places. -/
def roundTo (d : ℕ) (x : ℚ) : ℚ := (pyRound (x * 10 ^ d) : ℚ) / 10 ^ d

theorem pyRound_le (x : ℚ) : (pyRound x : ℚ) ≤ x + 1/2 := by
  have h1 : (⌊x⌋ : ℚ) ≤ x := Int.floor_le x
  unfold pyRound
  split_ifs <;> push_cast <;> linarith

theorem le_pyRound (x : ℚ) : x - 1/2 ≤ (pyRound x : ℚ) := by
  have h2 : x < ⌊x⌋ + 1 := Int.lt_floor_add_one x
  unfold pyRound
  split_ifs <;> push_cast <;> linarith

theorem roundTo_one_le (x : ℚ) : roundTo 1 x ≤ x + 1/20 := by
  have h := pyRound_le (x * 10 ^ 1)
  unfold roundTo
  rw [div_le_iff₀ (by norm_num : (0:ℚ) < 10 ^ 1)]
  push_cast at h ⊢
  linarith

theorem le_roundTo_one (x : ℚ) : x - 1/20 ≤ roundTo 1 x := by
  have h := le_pyRound (x * 10 ^ 1)
  unfold roundTo
  rw [le_div_iff₀ (by norm_num : (0:ℚ) < 10 ^ 1)]
  push_cast at h ⊢
  linarith

theorem roundTo_two_le (x : ℚ) : roundTo 2 x ≤ x + 1/200 := by
  have h := pyRound_le (x * 10 ^ 2)
  unfold roundTo
  rw [div_le_iff₀ (by norm_num : (0:ℚ) < 10 ^ 2)]
  push_cast at h ⊢
  linarith

theorem le_roundTo_two (x : ℚ) : x - 1/200 ≤ roundTo 2 x := by
  have h := le_pyRound (x * 10 ^ 2)
  unfold roundTo
  rw [le_div_iff₀ (by norm_num : (0:ℚ) < 10 ^ 2)]
  push_cast at h ⊢
  linarith

/-- `app.py:load_demo_data` line 167:
`'CRITICAL' if qty < reorder * 0.5 else 'LOW' if qty < reorder else 'HEALTHY'`. -/
def demo_stock_status (qty reorder : ℚ) : String :=
  if qty < reorder * (5/10) then "CRITICAL"
  else if qty < reorder then "LOW"
  else "HEALTHY"

/-- `app.py:load_demo_data` line 168:
`90 if qty < reorder * 0.5 else 70 if qty < reorder else 20`. -/
def demo_risk_score (qty reorder : ℚ) : ℚ :=
  if qty < reorder * (5/10) then 90
  else if qty < reorder then 70
  else 20

/-- `app.py:load_demo_data` lines 173–175:
`round(QUANTITY_ON_HAND / AVG_DAILY_SALES, 1) if AVG_DAILY_SALES > 0 else 999`. -/
def demo_days_until_stockout (qty avg_daily_sales : ℚ) : ℚ :=
  if 0 < avg_daily_sales then roundTo 1 (qty / avg_daily_sales) else 999

/-- `data_processing.py:generate_sample_inventory` lines 62–69 and
`generate_sample_data.py:generate_inventory_data` lines 98–105: the shared
threshold chain on a stock percentage. -/
def pct_status (p : ℚ) : String :=
  if p < 10 then "CRITICAL"
  else if p < 25 then "LOW"
  else if p < 50 then "MODERATE"
  else "GOOD"

/-- `data_processing.py:generate_sample_inventory` line 59:
`current_stock = int(max_stock * stock_pct / 100)` (the arguments are
nonnegative, so Python's truncating `int` is the floor). -/
def sample_current_stock (max_stock : ℤ) (stock_pct : ℚ) : ℤ :=
  ⌊(max_stock : ℚ) * stock_pct / 100⌋

/-- `data_processing.py:generate_sample_inventory` line 79:
`round(current_stock / consumption, 2) if consumption > 0 else 999`. -/
def sample_days_until_stockout (current_stock consumption : ℚ) : ℚ :=
  if 0 < consumption then roundTo 2 (current_stock / consumption) else 999

/-- `generate_sample_data.py:generate_inventory_data` line 97:
`stock_percentage = (current_stock / max_stock) * 100`. -/
def geninv_stock_percentage (current_stock max_stock : ℚ) : ℚ :=
  current_stock / max_stock * 100

/-- `generate_sample_data.py:generate_inventory_data` lines 96–105: the stock
status is the threshold chain applied to the exact percentage. -/
def geninv_stock_status (current_stock max_stock : ℚ) : String :=
  pct_status (geninv_stock_percentage current_stock max_stock)

/-- The fields of one row of a reorder-recommendation dataframe that the
urgent-items count in `display_reorder_list` reads. -/
structure ReorderRow where
  quantity_on_hand : ℚ
  safety_stock : ℚ
  priority_score : ℚ

/-- `components/reorder.py:display_reorder_list` lines 114–117 (identical in
`app.py` lines 458–461): when the dataframe has a `PRIORITY_SCORE` column the
urgent count is the number of rows with `PRIORITY_SCORE >= 8`; otherwise it is
the number of rows with `QUANTITY_ON_HAND <= SAFETY_STOCK`. -/
def urgentCount (has_priority_col : Bool) (rows : List ReorderRow) : ℕ :=
  if has_priority_col then
    rows.countP (fun r => decide (8 ≤ r.priority_score))
  else
    rows.countP (fun r => decide (r.quantity_on_hand ≤ r.safety_stock))

/-- Modelled from the spec: "Urgent" = `priority_score ≥ 8 OR
quantity_on_hand ≤ safety_stock`, counted over the dataframe. -/
def specUrgentCount (rows : List ReorderRow) : ℕ :=
  rows.countP (fun r => decide (8 ≤ r.priority_score ∨ r.quantity_on_hand ≤ r.safety_stock))

/-- `forecasting.py:generate_forecast_data` lines 21–22:
`if daily_sales <= 0: daily_sales = 1`. -/
def flooredDailySales (daily_sales : ℚ) : ℚ :=
  if daily_sales ≤ 0 then 1 else daily_sales

/-- `forecasting.py:generate_forecast_data` line 24:
`min(0.3, max(0.1, (current_stock / (daily_sales * 30)) * 0.05)) if daily_sales > 0 else 0.15`
(applied after the floor on `daily_sales`). -/
def demand_volatility (current_stock daily_sales : ℚ) : ℚ :=
  if 0 < daily_sales then
    min (3/10) (max (1/10) (current_stock / (daily_sales * 30) * (5/100)))
  else 15/100

/-- `forecasting.py:generate_forecast_data` line 28: each simulated daily
demand sample is clipped to `≥ 0` (`np.maximum(simulated_daily_demands, 0)`).
The raw normal draws are the nondeterministic input, passed in as a list. -/
def clippedSamples (raw : List ℚ) : List ℚ :=
  raw.map (fun x => max x 0)

/-- `forecasting.py:generate_forecast_data` line 30:
`total_forecasted_demand = simulated_daily_demands.sum()`. -/
def totalDemand (raw : List ℚ) : ℚ :=
  (clippedSamples raw).sum

/-- `forecasting.py:generate_forecast_data` line 31:
`avg_forecasted_daily_demand = simulated_daily_demands.mean()`. -/
def avgDemand (raw : List ℚ) : ℚ :=
  totalDemand raw / (raw.length : ℚ)

/-- `forecasting.py:generate_forecast_data` line 33:
`predicted_stock = max(0, current_stock - total_forecasted_demand)`. -/
def predictedStock (current_stock : ℚ) (raw : List ℚ) : ℚ :=
  max 0 (current_stock - totalDemand raw)

/-- `forecasting.py:generate_forecast_data` line 35:
`current_stock / avg_forecasted_daily_demand if avg_forecasted_daily_demand > 0 else 999`. -/
def daysToStockout (current_stock : ℚ) (raw : List ℚ) : ℚ :=
  if 0 < avgDemand raw then current_stock / avgDemand raw else 999

/-- Per-row input of `forecasting.py:generate_forecast_data`: the row fields it
reads plus the raw normal draws of line 27 (one per horizon day). -/
structure ForecastInput where
  current_stock : ℚ
  daily_sales : ℚ
  safety_stock : ℚ
  raw_samples : List ℚ

/-- The numeric and risk fields of one record appended by
`forecasting.py:generate_forecast_data` lines 52–67. -/
structure ForecastRow where
  current_stock : ℚ
  predicted_stock : ℚ
  predicted_consumption : ℚ
  predicted_days_to_stockout : ℚ
  model_accuracy : ℚ
  confidence_interval_lower : ℚ
  confidence_interval_upper : ℚ
  demand_volatility : ℚ
  stockout_risk : String

/-- `forecasting.py:generate_forecast_data` lines 16–67, one loop iteration:
floor the daily sales, compute volatility, clip and aggregate the demand
samples, and derive the predicted fields, accuracy, confidence band and risk
bucket. -/
def generate_forecast_row (inp : ForecastInput) : ForecastRow :=
  let ds := flooredDailySales inp.daily_sales
  let v := demand_volatility inp.current_stock ds
  let avg := avgDemand inp.raw_samples
  let d := daysToStockout inp.current_stock inp.raw_samples
  { current_stock := inp.current_stock
    predicted_stock := predictedStock inp.current_stock inp.raw_samples
    predicted_consumption := avg
    predicted_days_to_stockout := d
    model_accuracy :=
      max 60 (min 95 (85 - v * 50 - (if inp.current_stock < inp.safety_stock then 10 else 0)))
    confidence_interval_lower := avg * (85/100)
    confidence_interval_upper := avg * (115/100)
    demand_volatility := v
    stockout_risk :=
      if d < 7 then "HIGH RISK" else if d < 14 then "MODERATE RISK" else "LOW RISK" }

/-- Per-row input of `data_processing.py:generate_sample_forecasts`: the row
fields it reads plus its two uniform draws (`predicted_consumption` from
`uniform(10, 50)`, `accuracy_draw` from `uniform(75, 95)`). -/
structure SampleForecastInput where
  current_stock : ℚ
  max_stock : ℚ
  predicted_consumption : ℚ
  accuracy_draw : ℚ

/-- The numeric and risk fields of one record appended by
`data_processing.py:generate_sample_forecasts` lines 122–135. -/
structure SampleForecastRow where
  current_stock : ℚ
  predicted_stock : ℚ
  predicted_consumption : ℚ
  predicted_days_to_stockout : ℚ
  confidence_interval_lower : ℚ
  confidence_interval_upper : ℚ
  model_accuracy : ℚ
  stockout_risk : String

/-- `data_processing.py:generate_sample_forecasts` lines 110–135, one loop
iteration: `predicted_stock = max(0, current_stock - predicted_consumption * 14)`;
the risk bucket is `HIGH RISK` if that (unrounded) predicted stock equals 0,
`MODERATE RISK` if it is below `max_stock * 0.25`, else `LOW RISK`; the stored
fields are rounded as in the source. -/
def generate_sample_forecast_row (inp : SampleForecastInput) : SampleForecastRow :=
  let pc := inp.predicted_consumption
  let ps := max 0 (inp.current_stock - pc * 14)
  { current_stock := inp.current_stock
    predicted_stock := roundTo 2 ps
    predicted_consumption := roundTo 2 pc
    predicted_days_to_stockout := roundTo 1 (inp.current_stock / pc)
    confidence_interval_lower := roundTo 2 (pc * (8/10))
    confidence_interval_upper := roundTo 2 (pc * (12/10))
    model_accuracy := roundTo 2 inp.accuracy_draw
    stockout_risk :=
      if ps = 0 then "HIGH RISK"
      else if ps < inp.max_stock * (25/100) then "MODERATE RISK"
      else "LOW RISK" }

/-- Modelled from the spec: `clamp(lo, hi, x)` as written in §4.3
(`clamp(60, 95, …)`, `clamp(0.10, 0.30, …)`). -/
def clampSpec (lo hi x : ℚ) : ℚ := max lo (min hi x)

/-- Modelled from the spec: the deterministic risk-score tier mapping of §4.1
— 90 for the CRITICAL tier, 70 for the LOW tier, 20 otherwise (HEALTHY). -/
def riskTierSpec (status : String) : ℚ :=
  if status = "CRITICAL" then 90 else if status = "LOW" then 70 else 20

theorem flooredDailySales_pos (ds : ℚ) : 0 < flooredDailySales ds := by
  unfold flooredDailySales
  split_ifs with h
  · norm_num
  · linarith [not_le.mp h]

theorem totalDemand_nonneg (raw : List ℚ) : 0 ≤ totalDemand raw := by
  unfold totalDemand clippedSamples
  induction raw with
  | nil => simp
  | cons a t ih =>
    simp only [List.map_cons, List.sum_cons]
    have ha : (0:ℚ) ≤ max a 0 := le_max_right a 0
    linarith

theorem clipped_sum_zero (raw : List ℚ) (h : ∀ x ∈ raw, x ≤ 0) :
    (raw.map fun x => max x 0).sum = 0 := by
  induction raw with
  | nil => simp
  | cons a t ih =>
    simp only [List.map_cons, List.sum_cons]
    rw [max_eq_right (h a (List.mem_cons_self a t)),
      ih (fun x hx => h x (List.mem_cons_of_mem a hx)), add_zero]

theorem totalDemand_eq_zero (raw : List ℚ) (h : ∀ x ∈ raw, x ≤ 0) :
    totalDemand raw = 0 := by
  unfold totalDemand clippedSamples
  exact clipped_sum_zero raw h

theorem avgDemand_nonneg (raw : List ℚ) : 0 ≤ avgDemand raw := by
  unfold avgDemand
  exact div_nonneg (totalDemand_nonneg raw) (by positivity)

/-- Evaluation helper for `roundTo` when the scaled value rounds down to `n`. -/
theorem roundTo_eq (d : ℕ) (x : ℚ) (n : ℤ) (hlo : (n:ℚ) ≤ x * 10 ^ d)
    (hhi : x * 10 ^ d - n < 1/2) : roundTo d x = (n : ℚ) / 10 ^ d := by
  have hf : ⌊x * 10 ^ d⌋ = n := by
    rw [Int.floor_eq_iff]
    refine ⟨hlo, ?_⟩
    linarith
  unfold roundTo pyRound
  rw [hf, if_pos hhi]

end Inventory

namespace Inventory

/-- C1: in `load_demo_data` the computed `DAYS_UNTIL_STOCKOUT` at
`QUANTITY_ON_HAND = 1`, `AVG_DAILY_SALES = 6` (a positive demand the generator
can draw) is `round(1/6, 1) = 0.2`, not the exact quotient `1/6`, refuting
"days_until_stockout equals quantity_on_hand / avg_daily_sales exactly". -/
theorem C1_counterexample :
    (0:ℚ) < 6 ∧ demo_days_until_stockout 1 6 ≠ 1 / 6 := by
  constructor
  · norm_num
  · have h1 : (⌊(1/6 * 10 ^ 1 : ℚ)⌋ : ℤ) = 1 := by
      rw [Int.floor_eq_iff]
      norm_num
    unfold demo_days_until_stockout roundTo pyRound
    rw [if_pos (by norm_num : (0:ℚ) < 6)]
    norm_num [h1]

/-- C1 (amended): for positive demand, `days_until_stockout` is the quotient
`quantity_on_hand / avg_daily_sales` rounded to 1 decimal place in
`load_demo_data` (2 decimal places in `generate_sample_inventory`), hence
within 1/20 (resp. 1/200) of the exact quotient; for zero demand both use the
sentinel 999. -/
theorem C1_days_until_stockout (qty avg : ℚ) (h : 0 < avg) :
    demo_days_until_stockout qty avg = roundTo 1 (qty / avg) ∧
    |demo_days_until_stockout qty avg - qty / avg| ≤ 1/20 ∧
    demo_days_until_stockout qty 0 = 999 ∧
    sample_days_until_stockout qty avg = roundTo 2 (qty / avg) ∧
    |sample_days_until_stockout qty avg - qty / avg| ≤ 1/200 ∧
    sample_days_until_stockout qty 0 = 999 := by
  have e1 : demo_days_until_stockout qty avg = roundTo 1 (qty / avg) := by
    unfold demo_days_until_stockout
    rw [if_pos h]
  have e2 : sample_days_until_stockout qty avg = roundTo 2 (qty / avg) := by
    unfold sample_days_until_stockout
    rw [if_pos h]
  refine ⟨e1, ?_, ?_, e2, ?_, ?_⟩
  · rw [e1, abs_le]
    constructor
    · linarith [le_roundTo_one (qty / avg)]
    · linarith [roundTo_one_le (qty / avg)]
  · unfold demo_days_until_stockout
    rw [if_neg (by norm_num : ¬ (0:ℚ) < 0)]
  · rw [e2, abs_le]
    constructor
    · linarith [le_roundTo_two (qty / avg)]
    · linarith [roundTo_two_le (qty / avg)]
  · unfold sample_days_until_stockout
    rw [if_neg (by norm_num : ¬ (0:ℚ) < 0)]

/-- C1 (witness): the amended statement applied at `qty = 7`, `avg = 2`. -/
theorem C1_witness :
    (0:ℚ) < 2 ∧ demo_days_until_stockout 7 2 = roundTo 1 (7 / 2) :=
  ⟨by norm_num, (C1_days_until_stockout 7 2 (by norm_num)).1⟩

/-- C3: a one-row reorder dataframe that has a `PRIORITY_SCORE` column, with
`priority_score = 5`, `quantity_on_hand = 10 ≤ safety_stock = 50`: the code
counts 0 urgent items while the claimed disjunction counts 1. -/
theorem C3_counterexample :
    urgentCount true [⟨10, 50, 5⟩] = 0 ∧ specUrgentCount [⟨10, 50, 5⟩] = 1 := by
  constructor
  · unfold urgentCount
    rw [if_pos rfl]
    norm_num [List.countP_cons, List.countP_nil, decide_eq_true_eq]
  · unfold specUrgentCount
    norm_num [List.countP_cons, List.countP_nil, decide_eq_true_eq]

/-- C3 (amended): when the dataframe has a `PRIORITY_SCORE` column the urgent
count is exactly the number of rows with `priority_score ≥ 8`; only when the
column is absent does it count rows with `quantity_on_hand ≤ safety_stock`.
Either branch is a lower bound of the spec's disjunctive count. -/
theorem C3_urgent_count (rows : List ReorderRow) :
    urgentCount true rows = rows.countP (fun r => decide (8 ≤ r.priority_score)) ∧
    urgentCount false rows =
      rows.countP (fun r => decide (r.quantity_on_hand ≤ r.safety_stock)) ∧
    urgentCount true rows ≤ specUrgentCount rows ∧
    urgentCount false rows ≤ specUrgentCount rows := by
  refine ⟨rfl, rfl, ?_, ?_⟩
  · unfold urgentCount specUrgentCount
    rw [if_pos rfl]
    refine List.countP_mono_left (fun r _ h => ?_)
    simp only [decide_eq_true_eq] at h ⊢
    exact Or.inl h
  · unfold urgentCount specUrgentCount
    rw [if_neg (by simp)]
    refine List.countP_mono_left (fun r _ h => ?_)
    simp only [decide_eq_true_eq] at h ⊢
    exact Or.inr h

/-- C4: in `load_demo_data`, `RISK_SCORE` is exactly the deterministic tier
mapping of the computed `STOCK_STATUS` — 90 for CRITICAL, 70 for LOW, 20 for
HEALTHY — and always lies in `[0, 100]`. -/
theorem C4_risk_score (qty reorder : ℚ) :
    demo_risk_score qty reorder = riskTierSpec (demo_stock_status qty reorder) ∧
    0 ≤ demo_risk_score qty reorder ∧ demo_risk_score qty reorder ≤ 100 := by
  unfold demo_risk_score demo_stock_status
  split_ifs with h1 h2 <;>
    exact ⟨by rfl, by norm_num, by norm_num⟩

theorem bucket_iff (d : ℚ) :
    ((if d < 7 then "HIGH RISK" else if d < 14 then "MODERATE RISK" else "LOW RISK")
        = "HIGH RISK" ↔ d < 7) ∧
    ((if d < 7 then "HIGH RISK" else if d < 14 then "MODERATE RISK" else "LOW RISK")
        = "MODERATE RISK" ↔ 7 ≤ d ∧ d < 14) ∧
    ((if d < 7 then "HIGH RISK" else if d < 14 then "MODERATE RISK" else "LOW RISK")
        = "LOW RISK" ↔ 14 ≤ d) := by
  have hHM : ("HIGH RISK" : String) ≠ "MODERATE RISK" := by decide
  have hHL : ("HIGH RISK" : String) ≠ "LOW RISK" := by decide
  have hML : ("MODERATE RISK" : String) ≠ "LOW RISK" := by decide
  split_ifs with h1 h2
  · refine ⟨iff_of_true rfl h1, iff_of_false hHM ?_, iff_of_false hHL ?_⟩
    · rintro ⟨ha, _⟩
      linarith
    · intro ha
      linarith
  · refine ⟨iff_of_false (Ne.symm hHM) h1, iff_of_true rfl ⟨not_lt.mp h1, h2⟩,
      iff_of_false hML ?_⟩
    intro ha
    linarith
  · refine ⟨iff_of_false (Ne.symm hHL) h1, iff_of_false (Ne.symm hML) ?_,
      iff_of_true rfl (not_lt.mp h2)⟩
    rintro ⟨_, hb⟩
    exact h2 hb

theorem sample_bucket_iff (ps m : ℚ) :
    ((if ps = 0 then "HIGH RISK"
        else if ps < m * (25/100) then "MODERATE RISK" else "LOW RISK")
        = "HIGH RISK" ↔ ps = 0) ∧
    ((if ps = 0 then "HIGH RISK"
        else if ps < m * (25/100) then "MODERATE RISK" else "LOW RISK")
        = "MODERATE RISK" ↔ ps ≠ 0 ∧ ps < m * (25/100)) ∧
    ((if ps = 0 then "HIGH RISK"
        else if ps < m * (25/100) then "MODERATE RISK" else "LOW RISK")
        = "LOW RISK" ↔ ps ≠ 0 ∧ m * (25/100) ≤ ps) := by
  have hHM : ("HIGH RISK" : String) ≠ "MODERATE RISK" := by decide
  have hHL : ("HIGH RISK" : String) ≠ "LOW RISK" := by decide
  have hML : ("MODERATE RISK" : String) ≠ "LOW RISK" := by decide
  split_ifs with h1 h2
  · refine ⟨iff_of_true rfl h1, iff_of_false hHM ?_, iff_of_false hHL ?_⟩
    · rintro ⟨ha, _⟩
      exact ha h1
    · rintro ⟨ha, _⟩
      exact ha h1
  · refine ⟨iff_of_false (Ne.symm hHM) h1, iff_of_true rfl ⟨h1, h2⟩,
      iff_of_false hML ?_⟩
    rintro ⟨_, hb⟩
    linarith
  · refine ⟨iff_of_false (Ne.symm hHL) h1, iff_of_false (Ne.symm hML) ?_,
      iff_of_true rfl ⟨h1, not_lt.mp h2⟩⟩
    rintro ⟨_, hb⟩
    exact h2 hb

/-- C2: a record produced by `generate_sample_forecasts` from
`current_stock = 100`, `max_stock = 1000`, drawn `predicted_consumption = 10`:
its `predicted_days_to_stockout` is 10 (in `[7, 14)`, so the claim requires
MODERATE), yet its `stockout_risk` is `HIGH RISK`, because that generator
buckets by `predicted_stock`, not by `predicted_days_to_stockout`. -/
theorem C2_counterexample :
    7 ≤ (generate_sample_forecast_row ⟨100, 1000, 10, 80⟩).predicted_days_to_stockout ∧
    (generate_sample_forecast_row ⟨100, 1000, 10, 80⟩).predicted_days_to_stockout < 14 ∧
    (generate_sample_forecast_row ⟨100, 1000, 10, 80⟩).stockout_risk ≠ "MODERATE RISK" := by
  have hd : (generate_sample_forecast_row ⟨100, 1000, 10, 80⟩).predicted_days_to_stockout
      = 10 := by
    show roundTo 1 ((100:ℚ) / 10) = 10
    rw [roundTo_eq 1 ((100:ℚ)/10) 100 (by norm_num) (by norm_num)]
    norm_num
  have hmax : max (0:ℚ) (100 - 10 * 14) = 0 := max_eq_left (by norm_num)
  have hr : (generate_sample_forecast_row ⟨100, 1000, 10, 80⟩).stockout_risk
      = "HIGH RISK" := by
    show (if max (0:ℚ) (100 - 10 * 14) = 0 then "HIGH RISK"
      else if max (0:ℚ) (100 - 10 * 14) < 1000 * (25/100) then "MODERATE RISK"
      else "LOW RISK") = "HIGH RISK"
    rw [if_pos hmax]
  refine ⟨by rw [hd]; norm_num, by rw [hd]; norm_num, by rw [hr]; decide⟩

/-- C2 (amended): in `generate_forecast_data` the risk bucket is determined by
`predicted_days_to_stockout` with the exact boundaries HIGH `< 7 ≤` MODERATE
`< 14 ≤` LOW; in `generate_sample_forecasts` it is instead determined by the
unrounded `predicted_stock = max(0, current_stock − predicted_consumption × 14)`:
HIGH if it is 0, MODERATE if it is below `max_stock × 0.25`, else LOW. -/
theorem C2_stockout_risk (inp : ForecastInput) (sinp : SampleForecastInput) :
    ((generate_forecast_row inp).stockout_risk = "HIGH RISK" ↔
      (generate_forecast_row inp).predicted_days_to_stockout < 7) ∧
    ((generate_forecast_row inp).stockout_risk = "MODERATE RISK" ↔
      7 ≤ (generate_forecast_row inp).predicted_days_to_stockout ∧
        (generate_forecast_row inp).predicted_days_to_stockout < 14) ∧
    ((generate_forecast_row inp).stockout_risk = "LOW RISK" ↔
      14 ≤ (generate_forecast_row inp).predicted_days_to_stockout) ∧
    ((generate_sample_forecast_row sinp).stockout_risk = "HIGH RISK" ↔
      max 0 (sinp.current_stock - sinp.predicted_consumption * 14) = 0) ∧
    ((generate_sample_forecast_row sinp).stockout_risk = "MODERATE RISK" ↔
      max 0 (sinp.current_stock - sinp.predicted_consumption * 14) ≠ 0 ∧
        max 0 (sinp.current_stock - sinp.predicted_consumption * 14) <
          sinp.max_stock * (25/100)) ∧
    ((generate_sample_forecast_row sinp).stockout_risk = "LOW RISK" ↔
      max 0 (sinp.current_stock - sinp.predicted_consumption * 14) ≠ 0 ∧
        sinp.max_stock * (25/100) ≤
          max 0 (sinp.current_stock - sinp.predicted_consumption * 14)) := by
  obtain ⟨b1, b2, b3⟩ := bucket_iff (daysToStockout inp.current_stock inp.raw_samples)
  obtain ⟨s1, s2, s3⟩ := sample_bucket_iff
    (max 0 (sinp.current_stock - sinp.predicted_consumption * 14)) sinp.max_stock
  exact ⟨b1, b2, b3, s1, s2, s3⟩

/-- C5: the record produced by `generate_sample_forecasts` from
`current_stock = 100`, `max_stock = 1000`, drawn `predicted_consumption = 10`
has `confidence_interval_lower = round(10 × 0.8, 2) = 8`, not
`10 × 0.85 = 8.5`, refuting the claim that every forecast record's band is
`[demand × 0.85, demand × 1.15]`. -/
theorem C5_counterexample :
    (generate_sample_forecast_row ⟨100, 1000, 10, 80⟩).predicted_consumption = 10 ∧
    (generate_sample_forecast_row ⟨100, 1000, 10, 80⟩).confidence_interval_lower ≠
      (generate_sample_forecast_row ⟨100, 1000, 10, 80⟩).predicted_consumption
        * (85/100) := by
  have hpc : (generate_sample_forecast_row ⟨100, 1000, 10, 80⟩).predicted_consumption
      = 10 := by
    show roundTo 2 (10:ℚ) = 10
    rw [roundTo_eq 2 (10:ℚ) 1000 (by norm_num) (by norm_num)]
    norm_num
  have hcl : (generate_sample_forecast_row ⟨100, 1000, 10, 80⟩).confidence_interval_lower
      = 8 := by
    show roundTo 2 ((10:ℚ) * (8/10)) = 8
    rw [roundTo_eq 2 ((10:ℚ) * (8/10)) 800 (by norm_num) (by norm_num)]
    norm_num
  refine ⟨hpc, ?_⟩
  rw [hpc, hcl]
  norm_num

/-- C5 (amended): in `generate_forecast_data` the band is exactly
`[avg_forecasted_daily_demand × 0.85, avg_forecasted_daily_demand × 1.15]` and
always contains the (nonnegative) average demand; in
`generate_sample_forecasts` the band is
`[round(predicted_consumption × 0.8, 2), round(predicted_consumption × 1.2, 2)]`,
which contains `predicted_consumption` throughout that generator's draw range
(`predicted_consumption ≥ 10`). -/
theorem C5_confidence_band (inp : ForecastInput) (sinp : SampleForecastInput)
    (h : 10 ≤ sinp.predicted_consumption) :
    (generate_forecast_row inp).confidence_interval_lower =
      (generate_forecast_row inp).predicted_consumption * (85/100) ∧
    (generate_forecast_row inp).confidence_interval_upper =
      (generate_forecast_row inp).predicted_consumption * (115/100) ∧
    (generate_forecast_row inp).confidence_interval_lower ≤
      (generate_forecast_row inp).predicted_consumption ∧
    (generate_forecast_row inp).predicted_consumption ≤
      (generate_forecast_row inp).confidence_interval_upper ∧
    (generate_sample_forecast_row sinp).confidence_interval_lower =
      roundTo 2 (sinp.predicted_consumption * (8/10)) ∧
    (generate_sample_forecast_row sinp).confidence_interval_upper =
      roundTo 2 (sinp.predicted_consumption * (12/10)) ∧
    (generate_sample_forecast_row sinp).confidence_interval_lower ≤
      sinp.predicted_consumption ∧
    sinp.predicted_consumption ≤
      (generate_sample_forecast_row sinp).confidence_interval_upper := by
  have havg : 0 ≤ avgDemand inp.raw_samples := avgDemand_nonneg inp.raw_samples
  have hpc : (generate_forecast_row inp).predicted_consumption
      = avgDemand inp.raw_samples := rfl
  have hl : (generate_forecast_row inp).confidence_interval_lower
      = avgDemand inp.raw_samples * (85/100) := rfl
  have hu : (generate_forecast_row inp).confidence_interval_upper
      = avgDemand inp.raw_samples * (115/100) := rfl
  have hsl : (generate_sample_forecast_row sinp).confidence_interval_lower
      = roundTo 2 (sinp.predicted_consumption * (8/10)) := rfl
  have hsu : (generate_sample_forecast_row sinp).confidence_interval_upper
      = roundTo 2 (sinp.predicted_consumption * (12/10)) := rfl
  refine ⟨hl, hu, ?_, ?_, hsl, hsu, ?_, ?_⟩
  · rw [hl, hpc]
    linarith
  · rw [hu, hpc]
    linarith
  · rw [hsl]
    have := roundTo_two_le (sinp.predicted_consumption * (8/10))
    linarith
  · rw [hsu]
    have := le_roundTo_two (sinp.predicted_consumption * (12/10))
    linarith

/-- C5 (witness): the amended statement applied with draw
`predicted_consumption = 10` on the sample-forecast side. -/
theorem C5_witness :
    (10:ℚ) ≤ (⟨100, 1000, 10, 80⟩ : SampleForecastInput).predicted_consumption ∧
    (generate_sample_forecast_row ⟨100, 1000, 10, 80⟩).confidence_interval_lower ≤
      (⟨100, 1000, 10, 80⟩ : SampleForecastInput).predicted_consumption :=
  ⟨by norm_num,
    (C5_confidence_band ⟨0, 1, 0, []⟩ ⟨100, 1000, 10, 80⟩ (by norm_num)).2.2.2.2.2.2.1⟩

theorem clamp_comm (lo hi e : ℚ) (h : lo ≤ hi) :
    min hi (max lo e) = max lo (min hi e) := by
  rcases le_total e lo with h1 | h1 <;> rcases le_total e hi with h2 | h2 <;>
    simp [min_def, max_def] <;> split_ifs <;> linarith

/-- C6: in `generate_forecast_data`, `model_accuracy` equals
`clamp(60, 95, 85 − v × 50 − (10 if current_stock < safety_stock else 0))`
where the volatility `v` equals
`clamp(0.10, 0.30, current_stock / (daily_sales × 30) × 0.05)` over the floored
daily sales; hence `v ∈ [0.10, 0.30]` and `model_accuracy ∈ [60, 95]`. -/
theorem C6_model_accuracy (inp : ForecastInput) :
    (generate_forecast_row inp).model_accuracy =
      clampSpec 60 95 (85 - (generate_forecast_row inp).demand_volatility * 50 -
        (if inp.current_stock < inp.safety_stock then 10 else 0)) ∧
    (generate_forecast_row inp).demand_volatility =
      clampSpec (1/10) (3/10)
        (inp.current_stock / (flooredDailySales inp.daily_sales * 30) * (5/100)) ∧
    1/10 ≤ (generate_forecast_row inp).demand_volatility ∧
    (generate_forecast_row inp).demand_volatility ≤ 3/10 ∧
    60 ≤ (generate_forecast_row inp).model_accuracy ∧
    (generate_forecast_row inp).model_accuracy ≤ 95 := by
  have hdpos : 0 < flooredDailySales inp.daily_sales := flooredDailySales_pos _
  have hv : (generate_forecast_row inp).demand_volatility =
      min (3/10) (max (1/10)
        (inp.current_stock / (flooredDailySales inp.daily_sales * 30) * (5/100))) := by
    show demand_volatility inp.current_stock (flooredDailySales inp.daily_sales) = _
    unfold demand_volatility
    rw [if_pos hdpos]
  have hma : (generate_forecast_row inp).model_accuracy =
      max 60 (min 95 (85 - (generate_forecast_row inp).demand_volatility * 50 -
        (if inp.current_stock < inp.safety_stock then 10 else 0))) := rfl
  refine ⟨hma, ?_, ?_, ?_, ?_, ?_⟩
  · rw [hv]
    exact clamp_comm (1/10) (3/10) _ (by norm_num)
  · rw [hv]
    exact le_min (by norm_num) (le_max_left _ _)
  · rw [hv]
    exact min_le_left _ _
  · rw [hma]
    exact le_max_left _ _
  · rw [hma]
    exact max_le (by norm_num) (min_le_left _ _)

theorem pct_status_cases (q : ℚ) :
    (pct_status q = "CRITICAL" ↔ q < 10) ∧
    (pct_status q = "LOW" ↔ 10 ≤ q ∧ q < 25) ∧
    (pct_status q = "MODERATE" ↔ 25 ≤ q ∧ q < 50) ∧
    (pct_status q = "GOOD" ↔ 50 ≤ q) := by
  have hCL : ("CRITICAL" : String) ≠ "LOW" := by decide
  have hCM : ("CRITICAL" : String) ≠ "MODERATE" := by decide
  have hCG : ("CRITICAL" : String) ≠ "GOOD" := by decide
  have hLM : ("LOW" : String) ≠ "MODERATE" := by decide
  have hLG : ("LOW" : String) ≠ "GOOD" := by decide
  have hMG : ("MODERATE" : String) ≠ "GOOD" := by decide
  unfold pct_status
  split_ifs with h1 h2 h3
  · refine ⟨iff_of_true rfl h1, iff_of_false hCL ?_, iff_of_false hCM ?_,
      iff_of_false hCG ?_⟩
    · rintro ⟨ha, _⟩
      linarith
    · rintro ⟨ha, _⟩
      linarith
    · intro ha
      linarith
  · refine ⟨iff_of_false (Ne.symm hCL) h1, iff_of_true rfl ⟨not_lt.mp h1, h2⟩,
      iff_of_false hLM ?_, iff_of_false hLG ?_⟩
    · rintro ⟨ha, _⟩
      linarith
    · intro ha
      linarith
  · refine ⟨iff_of_false (Ne.symm hCM) h1, iff_of_false (Ne.symm hLM) ?_,
      iff_of_true rfl ⟨not_lt.mp h2, h3⟩, iff_of_false hMG ?_⟩
    · rintro ⟨_, hb⟩
      exact h2 hb
    · intro ha
      linarith
  · refine ⟨iff_of_false (Ne.symm hCG) h1, iff_of_false (Ne.symm hLG) ?_,
      iff_of_false (Ne.symm hMG) ?_, iff_of_true rfl (not_lt.mp h3)⟩
    · rintro ⟨_, hb⟩
      exact h2 hb
    · rintro ⟨_, hb⟩
      exact h3 hb

/-- C7: a record generated by `generate_sample_inventory` from the drawn
`stock_pct = 10.01` and `max_stock = 999`: the stored status is `LOW` (the
chain is applied to the drawn percentage), but `current_stock` is floored to
`int(999 × 10.01 / 100) = 99`, and first-match-wins over
`current_stock / max_stock × 100 = 9.909…` gives `CRITICAL` — so the status is
not assigned over `current_stock / max_stock × 100` for every record. -/
theorem C7_counterexample :
    pct_status (1001/100) = "LOW" ∧
    sample_current_stock 999 (1001/100) = 99 ∧
    geninv_stock_status ((sample_current_stock 999 (1001/100) : ℤ) : ℚ) 999
      = "CRITICAL" ∧
    ("LOW" : String) ≠ "CRITICAL" := by
  have hc : sample_current_stock 999 (1001/100) = 99 := by
    unfold sample_current_stock
    rw [Int.floor_eq_iff]
    constructor <;> norm_num
  refine ⟨?_, hc, ?_, by decide⟩
  · unfold pct_status
    norm_num
  · rw [hc]
    unfold geninv_stock_status geninv_stock_percentage pct_status
    norm_num

/-- C7 (amended): in `generate_inventory_data` the status is first-match-wins
over `stock_percentage = current_stock / max_stock × 100` exactly as claimed;
in `generate_sample_inventory` the same chain is applied to the drawn
`stock_pct` instead, while `current_stock = int(max_stock × stock_pct / 100)`
is floored, so the two percentages can fall in different buckets. -/
theorem C7_pct_scheme (current_stock max_stock p : ℚ) :
    (geninv_stock_status current_stock max_stock = "CRITICAL" ↔
      geninv_stock_percentage current_stock max_stock < 10) ∧
    (geninv_stock_status current_stock max_stock = "LOW" ↔
      10 ≤ geninv_stock_percentage current_stock max_stock ∧
        geninv_stock_percentage current_stock max_stock < 25) ∧
    (geninv_stock_status current_stock max_stock = "MODERATE" ↔
      25 ≤ geninv_stock_percentage current_stock max_stock ∧
        geninv_stock_percentage current_stock max_stock < 50) ∧
    (geninv_stock_status current_stock max_stock = "GOOD" ↔
      50 ≤ geninv_stock_percentage current_stock max_stock) ∧
    (pct_status p = "CRITICAL" ↔ p < 10) ∧
    (pct_status p = "LOW" ↔ 10 ≤ p ∧ p < 25) ∧
    (pct_status p = "MODERATE" ↔ 25 ≤ p ∧ p < 50) ∧
    (pct_status p = "GOOD" ↔ 50 ≤ p) := by
  obtain ⟨g1, g2, g3, g4⟩ :=
    pct_status_cases (geninv_stock_percentage current_stock max_stock)
  obtain ⟨p1, p2, p3, p4⟩ := pct_status_cases p
  exact ⟨g1, g2, g3, g4, p1, p2, p3, p4⟩

/-- C8: `load_demo_data` classifies an item with `QUANTITY_ON_HAND = 0` and
`REORDER_POINT = 50` as `CRITICAL`, not `OUT_OF_STOCK`: no in-repository
classifier ever emits an `OUT_OF_STOCK` status. -/
theorem C8_counterexample :
    demo_stock_status 0 50 = "CRITICAL" ∧ ("CRITICAL" : String) ≠ "OUT_OF_STOCK" := by
  constructor
  · unfold demo_stock_status
    norm_num
  · decide

/-- C8 (amended): neither threshold scheme in the repository has an
`OUT_OF_STOCK` status; an item with `quantity_on_hand ≤ 0` receives `CRITICAL`
from `load_demo_data` (its most severe status) whenever `reorder_point > 0`. -/
theorem C8_out_of_stock (qty reorder p cur maxs : ℚ) (h0 : qty ≤ 0)
    (hr : 0 < reorder) :
    demo_stock_status qty reorder = "CRITICAL" ∧
    demo_stock_status qty reorder ≠ "OUT_OF_STOCK" ∧
    pct_status p ≠ "OUT_OF_STOCK" ∧
    geninv_stock_status cur maxs ≠ "OUT_OF_STOCK" := by
  have hcrit : demo_stock_status qty reorder = "CRITICAL" := by
    unfold demo_stock_status
    rw [if_pos (by linarith : qty < reorder * (5/10))]
  have hpct : ∀ q : ℚ, pct_status q ≠ "OUT_OF_STOCK" := by
    intro q
    unfold pct_status
    split_ifs <;> decide
  refine ⟨hcrit, ?_, hpct p, ?_⟩
  · rw [hcrit]
    decide
  · unfold geninv_stock_status
    exact hpct _

/-- C8 (witness): the amended statement applied at `qty = 0`,
`reorder_point = 50`. -/
theorem C8_witness :
    (0:ℚ) ≤ 0 ∧ (0:ℚ) < 50 ∧ demo_stock_status 0 50 = "CRITICAL" :=
  ⟨le_refl 0, by norm_num,
    (C8_out_of_stock 0 50 0 0 0 (le_refl 0) (by norm_num)).1⟩

/-- C9: `generate_forecast_data` guards every division: the floored daily
sales are at least 1 (so the volatility and standard-deviation divisors are
nonzero), and `predicted_days_to_stockout` divides by
`avg_forecasted_daily_demand` only when it is positive — in particular the
sentinel 999 is returned whenever every demand sample clips to zero. -/
theorem C9_no_division_by_zero :
    (∀ ds : ℚ, (ds ≤ 0 → flooredDailySales ds = 1) ∧
      0 < flooredDailySales ds ∧ flooredDailySales ds * 30 ≠ 0) ∧
    (∀ (cur : ℚ) (raw : List ℚ), ¬ 0 < avgDemand raw →
      daysToStockout cur raw = 999) ∧
    (∀ (cur : ℚ) (raw : List ℚ), 0 < avgDemand raw →
      daysToStockout cur raw * avgDemand raw = cur) ∧
    (∀ (cur : ℚ) (raw : List ℚ), (∀ x ∈ raw, x ≤ 0) →
      daysToStockout cur raw = 999) := by
  refine ⟨fun ds => ⟨fun hds => ?_, flooredDailySales_pos ds, ?_⟩,
    fun cur raw h => ?_, fun cur raw h => ?_, fun cur raw h => ?_⟩
  · unfold flooredDailySales
    rw [if_pos hds]
  · have h1 : 0 < flooredDailySales ds := flooredDailySales_pos ds
    positivity
  · unfold daysToStockout
    rw [if_neg h]
  · unfold daysToStockout
    rw [if_pos h]
    exact div_mul_cancel₀ cur (ne_of_gt h)
  · have hz : avgDemand raw = 0 := by
      unfold avgDemand
      rw [totalDemand_eq_zero raw h, zero_div]
    unfold daysToStockout
    rw [if_neg (by rw [hz]; norm_num)]

/-- C9 (witness): the sentinel case on an all-nonpositive sample list and the
genuine-division case on positive samples. -/
theorem C9_witness :
    daysToStockout 5 [(-1), 0] = 999 ∧
    daysToStockout 6 [3, 3] * avgDemand [3, 3] = 6 := by
  constructor
  · exact C9_no_division_by_zero.2.2.2 5 [(-1), 0]
      (by norm_num [List.forall_mem_cons])
  · have h33 : avgDemand [3, 3] = 3 := by
      have hm : max (3:ℚ) 0 = 3 := max_eq_left (by norm_num)
      unfold avgDemand totalDemand clippedSamples
      simp [hm]
    exact C9_no_division_by_zero.2.2.1 6 [3, 3] (by rw [h33]; norm_num)

/-- C10: for a nonnegative current stock, the predicted stock computed by
`generate_forecast_data` lies between 0 and the current stock, because every
clipped demand sample is nonnegative, making the total forecasted demand
nonnegative. -/
theorem C10_predicted_stock_bounds (inp : ForecastInput)
    (h : 0 ≤ inp.current_stock) :
    0 ≤ (generate_forecast_row inp).predicted_stock ∧
    (generate_forecast_row inp).predicted_stock ≤ inp.current_stock := by
  have ht : 0 ≤ totalDemand inp.raw_samples := totalDemand_nonneg inp.raw_samples
  have hps : (generate_forecast_row inp).predicted_stock
      = max 0 (inp.current_stock - totalDemand inp.raw_samples) := rfl
  constructor
  · rw [hps]
    exact le_max_left _ _
  · rw [hps]
    exact max_le h (by linarith)

/-- C10 (witness): the bounds applied at `current_stock = 100` with samples
`[4, 6]`. -/
theorem C10_witness :
    (0:ℚ) ≤ 100 ∧
    0 ≤ (generate_forecast_row ⟨100, 5, 20, [4, 6]⟩).predicted_stock ∧
    (generate_forecast_row ⟨100, 5, 20, [4, 6]⟩).predicted_stock ≤ 100 :=
  ⟨by norm_num,
    (C10_predicted_stock_bounds ⟨100, 5, 20, [4, 6]⟩ (by norm_num)).1,
    (C10_predicted_stock_bounds ⟨100, 5, 20, [4, 6]⟩ (by norm_num)).2⟩

end Inventory
